import Mathlib

/-!
Shallow embedding of the pomodoro timer state machine and the reward-particle
physics simulation of `src/app/page.tsx`, with theorems checking the
specification's claims against the code.

Timer: the component state relevant to the timer is
`(workTime, breakTime, currentTime, mode, endTime)`; times are integers
(minutes, seconds, epoch milliseconds).  `startWork`, `startBreak` and the
once-per-second interval callback (`tick`) are translated directly from the
source.  The `prevModeRef` effect that fires confetti / records a pomodoro on
mode changes is modelled by `modeChangeEvents`.

Physics: the `OrangePhysics` update loop is translated over the exact reals
(the source uses JavaScript floats): per-frame integration with boundary
clamping and damping (`integrate`), the in-place O(n²) pairwise collision pass
(`pairPass` folding `collidePair` over index pairs), and the obstacle
(start-button rectangle) pass (`collideObstacle`).  The acceleration selection
and the population-adjustment effect are `selectAccel` and `adjustOranges`.
-/

namespace Timer

inductive Mode
  | idle
  | work
  | finishedWork
  | onBreak
  deriving DecidableEq, Repr

structure TimerState where
  workTime : ℤ
  breakTime : ℤ
  currentTime : ℤ
  mode : Mode
  endTime : Option ℤ
  deriving DecidableEq, Repr

/-- Initial component state: `useState(30)`, `useState(5)`, `useState(workTime*60)`,
`useState("idle")`, `useState<number | null>(null)` — parametrised by the two
duration settings. -/
def init (w b : ℤ) : TimerState :=
  { workTime := w, breakTime := b, currentTime := w * 60, mode := .idle, endTime := none }

/-- Source `startWork`: guarded on `mode === "idle"`; sets
`endTime = Date.now() + workTime * 60 * 1000` and `mode = "work"`. -/
def startWork (now : ℤ) (s : TimerState) : TimerState :=
  if s.mode = .idle then
    { s with endTime := some (now + s.workTime * 60 * 1000), mode := .work }
  else s

/-- Source `startBreak`: guarded on `mode === "finishedWork"`; sets
`endTime = Date.now() + breakTime * 60 * 1000` and `mode = "break"`. -/
def startBreak (now : ℤ) (s : TimerState) : TimerState :=
  if s.mode = .finishedWork then
    { s with endTime := some (now + s.breakTime * 60 * 1000), mode := .onBreak }
  else s

/-- Source `Math.max(0, Math.floor((endTime - Date.now()) / 1000))`; JavaScript's
`Math.floor` of a real division is floor division, `Int.fdiv`. -/
def secondsLeftOf (endTime now : ℤ) : ℤ :=
  max 0 (Int.fdiv (endTime - now) 1000)

/-- One firing of the countdown interval callback.  The effect installs the
interval only when `(mode === "work" || mode === "break") && endTime !== null`;
the callback sets `currentTime` to `secondsLeftOf` and, when that is `0`,
transitions `work → finishedWork` or `break → idle`.  `endTime` is not
modified anywhere in the callback. -/
def tick (now : ℤ) (s : TimerState) : TimerState :=
  match s.endTime with
  | none => s
  | some e =>
    if s.mode = .work ∨ s.mode = .onBreak then
      let r := secondsLeftOf e now
      { s with
        currentTime := r,
        mode := if r = 0 then (if s.mode = .work then .finishedWork else .idle) else s.mode }
    else s

inductive Event
  | reward
  | cycleComplete
  deriving DecidableEq, Repr

/-- The `prevModeRef` effect body, evaluated on a mode change: confetti (and
vibration) when the new mode is `finishedWork`; `recordPomodoro` plus confetti
when transitioning from `break` to `idle`. -/
def modeChangeEvents (oldMode newMode : Mode) : List Event :=
  (if newMode = .finishedWork then [Event.reward] else []) ++
  (if oldMode = .onBreak ∧ newMode = .idle then [Event.cycleComplete] else [])

/-- Events emitted by one state step: the effect re-runs when `mode` changed. -/
def eventsOf (s s' : TimerState) : List Event :=
  if s'.mode ≠ s.mode then modeChangeEvents s.mode s'.mode else []

/-- A tick together with the side effects it triggers. -/
def tickE (now : ℤ) (s : TimerState) : TimerState × List Event :=
  (tick now s, eventsOf s (tick now s))

/-- The operations that can reach a timer state: the two transition functions,
the interval tick, and the settings effects (changing a duration in idle mode
also resets the displayed time to `workTime * 60`). -/
inductive Op
  | startWork (now : ℤ)
  | startBreak (now : ℤ)
  | tick (now : ℤ)
  | setWorkTime (w : ℤ)
  | setBreakTime (b : ℤ)

def applyOp : Op → TimerState → TimerState
  | .startWork n, s => startWork n s
  | .startBreak n, s => startBreak n s
  | .tick n, s => tick n s
  | .setWorkTime w, s =>
      if s.mode = .idle then { s with workTime := w, currentTime := w * 60 }
      else { s with workTime := w }
  | .setBreakTime b, s => { s with breakTime := b }

/-- The state reached from the initial state by a list of operations. -/
def run (w b : ℤ) (ops : List Op) : TimerState :=
  ops.foldl (fun s o => applyOp o s) (init w b)

/-- The specification's formula for the displayed countdown:
`max(0, round((deadline − now)/1000))` with JavaScript's `Math.round`
(round half toward positive infinity), written over the integers. -/
def specRemaining (endTime now : ℤ) : ℤ :=
  max 0 (Int.fdiv (2 * (endTime - now) + 1000) 2000)

end Timer

namespace Physics

/-- The index pairs `(i, j)` with `i < j` visited by the nested
`for (i) for (j = i + 1)` loops, in source order. -/
def pairIndices (n : ℕ) : List (ℕ × ℕ) :=
  ((List.range n).map (fun i => ((List.range n).drop (i + 1)).map (fun j => (i, j)))).flatten

noncomputable section

/-- One element of the `oranges` state array. -/
structure Orange where
  id : ℤ
  x : ℝ
  y : ℝ
  vx : ℝ
  vy : ℝ

/-- The acceleration vector handed to the integrator. -/
structure Accel where
  ax : ℝ
  ay : ℝ

/-- Source `const orangeSize = 70`. -/
def orangeSize : ℝ := 70

/-- Boundary handling for one axis, from the source: clamp to `0` or
`limit - size` and invert the velocity scaled by `0.8`. -/
def clampAxis (size limit pos vel : ℝ) : ℝ × ℝ :=
  if pos < 0 then (0, -vel * 0.8)
  else if pos + size > limit then (limit - size, -vel * 0.8)
  else (pos, vel)

/-- Phase 1 of the update loop: semi-implicit Euler integration
(`vx += ax*dt; x += vx*dt`), per-axis boundary clamp, then unconditional
damping `*= 0.99` of both velocity components. -/
def integrate (size W H dt : ℝ) (a : Accel) (o : Orange) : Orange :=
  let vx := o.vx + a.ax * dt
  let vy := o.vy + a.ay * dt
  let x := o.x + vx * dt
  let y := o.y + vy * dt
  let px := clampAxis size W x vx
  let py := clampAxis size H y vy
  { o with x := px.1, y := py.1, vx := px.2 * 0.99, vy := py.2 * 0.99 }

/-- Source `effectiveRadius = size / 4`. -/
def effectiveRadius (size : ℝ) : ℝ := size / 4

/-- Source `minDistance = effectiveRadius * 2`. -/
def minDistance (size : ℝ) : ℝ := effectiveRadius size * 2

/-- Distance between the two sprite centers, as computed in the source. -/
def centerDistance (size : ℝ) (A B : Orange) : ℝ :=
  Real.sqrt ((B.x + size / 2 - (A.x + size / 2)) * (B.x + size / 2 - (A.x + size / 2)) +
    (B.y + size / 2 - (A.y + size / 2)) * (B.y + size / 2 - (A.y + size / 2)))

/-- The body of the pairwise collision pass for one pair `(orangeA, orangeB)`:
guarded on `distance < minDistance && distance > 0`; symmetric positional
separation along the normal, then the impulse (restitution `0.8`) applied only
when `impulse < 0`. -/
def collidePair (size : ℝ) (A B : Orange) : Orange × Orange :=
  let dx := B.x + size / 2 - (A.x + size / 2)
  let dy := B.y + size / 2 - (A.y + size / 2)
  let distance := Real.sqrt (dx * dx + dy * dy)
  if distance < minDistance size ∧ distance > 0 then
    let overlap := (minDistance size - distance) / 2
    let nx := dx / distance
    let ny := dy / distance
    let A' := { A with x := A.x - overlap * nx, y := A.y - overlap * ny }
    let B' := { B with x := B.x + overlap * nx, y := B.y + overlap * ny }
    let dvx := A'.vx - B'.vx
    let dvy := A'.vy - B'.vy
    let impulse := dvx * nx + dvy * ny
    if impulse < 0 then
      let impulseScalar := -impulse * 0.8
      ({ A' with vx := A'.vx + impulseScalar * nx, vy := A'.vy + impulseScalar * ny },
       { B' with vx := B'.vx - impulseScalar * nx, vy := B'.vy - impulseScalar * ny })
    else (A', B')
  else (A, B)

/-- Apply `collidePair` to the array entries at one index pair (the source
mutates `newOranges[i]` and `newOranges[j]` in place). -/
def applyPair (size : ℝ) (l : List Orange) (ij : ℕ × ℕ) : List Orange :=
  match l.get? ij.1, l.get? ij.2 with
  | some A, some B =>
      let p := collidePair size A B
      (l.set ij.1 p.1).set ij.2 p.2
  | _, _ => l

/-- Phase 2: the full O(n²) pairwise pass in source iteration order. -/
def pairPass (size : ℝ) (l : List Orange) : List Orange :=
  (pairIndices l.length).foldl (applyPair size) l

/-- The start button's bounding rectangle. -/
structure Rect where
  left : ℝ
  top : ℝ
  right : ℝ
  bottom : ℝ

/-- Nearest point of the rectangle to the sprite center:
`(max(left, min(cx, right)), max(top, min(cy, bottom)))`. -/
def nearestPoint (size : ℝ) (r : Rect) (o : Orange) : ℝ × ℝ :=
  (max r.left (min (o.x + size / 2) r.right), max r.top (min (o.y + size / 2) r.bottom))

/-- Source `distX = cx - nearestX`. -/
def obstacleDX (size : ℝ) (r : Rect) (o : Orange) : ℝ :=
  o.x + size / 2 - (nearestPoint size r o).1

/-- Source `distY = cy - nearestY`. -/
def obstacleDY (size : ℝ) (r : Rect) (o : Orange) : ℝ :=
  o.y + size / 2 - (nearestPoint size r o).2

/-- Source `dist = Math.sqrt(distX*distX + distY*distY)`. -/
def obstacleDist (size : ℝ) (r : Rect) (o : Orange) : ℝ :=
  Real.sqrt (obstacleDX size r o * obstacleDX size r o + obstacleDY size r o * obstacleDY size r o)

/-- The contact normal used by the obstacle pass: `(0, -1)` (straight up in
screen coordinates) when `dist === 0`, otherwise `(distX/dist, distY/dist)`. -/
def contactNormal (size : ℝ) (r : Rect) (o : Orange) : ℝ × ℝ :=
  if obstacleDist size r o = 0 then (0, -1)
  else (obstacleDX size r o / obstacleDist size r o, obstacleDY size r o / obstacleDist size r o)

/-- Phase 3 body for one orange: when `dist < effectiveRadius`, reflect the
velocity about the contact normal (`v -= 2*(v·n)*n`, no restitution factor)
and push the position out by `penetration = effectiveRadius - dist` along it. -/
def collideObstacle (size : ℝ) (r : Rect) (o : Orange) : Orange :=
  if obstacleDist size r o < effectiveRadius size then
    let n := contactNormal size r o
    let dot := o.vx * n.1 + o.vy * n.2
    let penetration := effectiveRadius size - obstacleDist size r o
    { o with
      vx := o.vx - 2 * dot * n.1,
      vy := o.vy - 2 * dot * n.2,
      x := o.x + n.1 * penetration,
      y := o.y + n.2 * penetration }
  else o

/-- Phase 3 over the whole array; the pass is skipped when the start button is
not rendered (`startButtonRef.current` is null). -/
def obstaclePass (size : ℝ) (rect? : Option Rect) (l : List Orange) : List Orange :=
  match rect? with
  | some r => l.map (collideObstacle size r)
  | none => l

/-- One full simulation tick of the `update` callback (excluding the DOM
write-back): integration/boundary/damping, pairwise pass, obstacle pass. -/
def update (size W H dt : ℝ) (a : Accel) (rect? : Option Rect) (l : List Orange) : List Orange :=
  obstaclePass size rect? (pairPass size (l.map (integrate size W H dt a)))

/-- Source `const defaultAccel` with `ax: 0, ay: 500`. -/
def defaultAccel : Accel := ⟨0, 500⟩

/-- Source `const velocityBoost = 1.5`. -/
def velocityBoost : ℝ := 1.5

/-- Source `const sensitivity = 3` in `handleDeviceOrientation`. -/
def sensitivity : ℝ := 3

/-- Source `accelRef` initial value, `ax: 0, ay: 0`. -/
def initialAccelRef : Accel := ⟨0, 0⟩

/-- A tilt sample: `accelRef.current = { ax: gamma * sensitivity, ay: beta * sensitivity }`. -/
def handleDeviceOrientation (gamma beta : ℝ) : Accel :=
  ⟨gamma * sensitivity, beta * sensitivity⟩

/-- The per-frame acceleration selection:
`(needsMotionPermission && !motionPermissionGranted) || !window.DeviceOrientationEvent`
chooses the default; otherwise the sensor ref scaled by `velocityBoost`. -/
def selectAccel (capabilityPresent needsMotionPermission motionPermissionGranted : Bool)
    (accelRef : Accel) : Accel :=
  if (needsMotionPermission && !motionPermissionGranted) || !capabilityPresent then defaultAccel
  else ⟨accelRef.ax * velocityBoost, accelRef.ay * velocityBoost⟩

/-- The batch of oranges appended when the count grows: randomized positions in
`[0, container - size)`, zero velocity, ids `Date.now() + i`. -/
def newOranges (size W H : ℝ) (baseId : ℤ) (rand : ℕ → ℝ × ℝ) (numToAdd : ℕ) : List Orange :=
  (List.range numToAdd).map fun (i : ℕ) =>
    { id := baseId + (i : ℤ),
      x := (rand i).1 * (W - size),
      y := (rand i).2 * (H - size),
      vx := 0, vy := 0 }

/-- The population-adjustment effect: append `count - length` new oranges when
the reward count exceeds the population, `slice(0, count)` when below. -/
def adjustOranges (size W H : ℝ) (count : ℕ) (baseId : ℤ) (rand : ℕ → ℝ × ℝ)
    (l : List Orange) : List Orange :=
  if l.length < count then l ++ newOranges size W H baseId rand (count - l.length)
  else if count < l.length then l.take count
  else l

end

end Physics

/-! ## Timer theorems -/

namespace Timer

theorem secondsLeftOf_eq_zero {e now : ℤ} (h : e ≤ now) : secondsLeftOf e now = 0 := by
  unfold secondsLeftOf
  rw [Int.fdiv_eq_ediv _ (by norm_num)]
  omega

/-- C1 counterexample: the code computes the countdown with `Math.floor`, not
`round`.  Starting a 1-minute work phase at `t = 0` gives deadline `60000`; a
tick at `now = 58500` (1500 ms left) displays `1`, while the claimed formula
`max(0, round((deadline − now)/1000))` gives `2`. -/
theorem remaining_round_counterexample :
    (startWork 0 (init 1 1)).endTime = some 60000 ∧
    (startWork 0 (init 1 1)).mode = Mode.work ∧
    (tick 58500 (startWork 0 (init 1 1))).currentTime = 1 ∧
    specRemaining 60000 58500 = 2 ∧
    (tick 58500 (startWork 0 (init 1 1))).currentTime ≠ specRemaining 60000 58500 := by
  decide

/-- C1 (amended): for every mode in {work, break} with a set deadline, each
timer poll tick sets the displayed remaining seconds to exactly
`max(0, ⌊(deadline − now)/1000⌋)` (floor, not round), for every value of
`now`, including `now` arbitrarily far past the deadline. -/
theorem tick_sets_floor_remaining (s : TimerState) (e now : ℤ)
    (hmode : s.mode = Mode.work ∨ s.mode = Mode.onBreak) (he : s.endTime = some e) :
    (tick now s).currentTime = max 0 (Int.fdiv (e - now) 1000) := by
  unfold tick
  rw [he]
  simp [hmode, secondsLeftOf]

/-- C1 witness: the amended theorem evaluated on a concrete late tick
(`now` far past the deadline `60000`). -/
theorem tick_sets_floor_remaining_witness :
    ((startWork 0 (init 1 1)).mode = Mode.work ∨
      (startWork 0 (init 1 1)).mode = Mode.onBreak) ∧
    (startWork 0 (init 1 1)).endTime = some 60000 ∧
    (tick 1000000000 (startWork 0 (init 1 1))).currentTime =
      max 0 (Int.fdiv (60000 - 1000000000) 1000) :=
  ⟨by decide, by decide,
    tick_sets_floor_remaining (startWork 0 (init 1 1)) 60000 1000000000
      (by decide) (by decide)⟩

/-- A tick is a no-op outside the `work`/`break` modes (the interval is not
even installed there). -/
theorem tick_noop (now : ℤ) (t : TimerState)
    (h1 : t.mode ≠ Mode.work) (h2 : t.mode ≠ Mode.onBreak) : tick now t = t := by
  cases hE : t.endTime with
  | none => simp [tick, hE]
  | some e => simp [tick, hE, h1, h2]

theorem applyOp_deadline_inv (o : Op) (s : TimerState)
    (h : s.endTime = none → s.mode = Mode.idle) :
    (applyOp o s).endTime = none → (applyOp o s).mode = Mode.idle := by
  cases o with
  | startWork n =>
      simp only [applyOp, startWork]
      split_ifs <;> simp_all
  | startBreak n =>
      simp only [applyOp, startBreak]
      split_ifs <;> simp_all
  | tick n =>
      simp only [applyOp]
      cases hE : s.endTime with
      | none => simpa [tick, hE] using h
      | some e => simp only [tick, hE]; split_ifs <;> simp_all
  | setWorkTime w =>
      simp only [applyOp]
      split_ifs <;> simp_all
  | setBreakTime b =>
      simp only [applyOp]
      simp_all

theorem foldl_deadline_inv (ops : List Op) (s : TimerState)
    (h : s.endTime = none → s.mode = Mode.idle) :
    (ops.foldl (fun s o => applyOp o s) s).endTime = none →
      (ops.foldl (fun s o => applyOp o s) s).mode = Mode.idle := by
  induction ops generalizing s with
  | nil => exact h
  | cons o t ih => exact ih (applyOp o s) (applyOp_deadline_inv o s h)

/-- C2 counterexample: no code path ever sets `endTime` back to `null`, so
after a full work + break cycle the state is `mode = idle` with the stale
break deadline still present — refuting "deadline is absent exactly when
mode = Idle". -/
theorem deadline_not_cleared_counterexample :
    (run 1 1 [.startWork 0, .tick 60000, .startBreak 70000, .tick 200000]).mode
      = Mode.idle ∧
    (run 1 1 [.startWork 0, .tick 60000, .startBreak 70000, .tick 200000]).endTime
      = some 130000 := by
  decide

/-- C2 (amended): in every reachable timer state, if the deadline is absent
then `mode = Idle` (the deadline is absent only in the pre-first-start idle
state); `start()`/`startBreak()` set it and no operation ever clears it, so
the converse fails after a completed cycle. -/
theorem deadline_none_implies_idle (w b : ℤ) (ops : List Op) :
    ((run w b ops).endTime = none → (run w b ops).mode = Mode.idle) ∧
    (∀ o s, (applyOp o s).endTime = none → s.endTime = none) := by
  constructor
  · exact foldl_deadline_inv ops (init w b) (fun _ => rfl)
  · intro o s
    cases o with
    | startWork n =>
        simp only [applyOp, startWork]
        split_ifs <;> simp_all
    | startBreak n =>
        simp only [applyOp, startBreak]
        split_ifs <;> simp_all
    | tick n =>
        simp only [applyOp]
        cases hE : s.endTime with
        | none => simp [tick, hE]
        | some e => simp only [tick, hE]; split_ifs <;> simp_all
    | setWorkTime w' =>
        simp only [applyOp]
        split_ifs <;> simp_all
    | setBreakTime b' =>
        simp only [applyOp]
        simp_all

/-- C2 witness: the amended invariant evaluated on the empty run (deadline
absent, mode idle) and on a concrete step. -/
theorem deadline_none_implies_idle_witness :
    (run 1 1 []).endTime = none ∧ (run 1 1 []).mode = Mode.idle ∧
    (applyOp (.tick 5) (init 1 1)).endTime = none ∧ (init 1 1).endTime = none :=
  ⟨by decide, (deadline_none_implies_idle 1 1 []).1 (by decide),
    by decide, (deadline_none_implies_idle 1 1 []).2 (.tick 5) (init 1 1) (by decide)⟩

/-- C3: with a set deadline, a poll tick delayed arbitrarily far past the
deadline (`e ≤ now`) fires the crossing side effect exactly once: the tick
from `work` emits exactly `[reward]` (resp. from `break` exactly
`[cycleComplete]`), and every later tick, at any time, emits nothing. -/
theorem transition_effects_fire_once (s : TimerState) (e now : ℤ)
    (he : s.endTime = some e) (hlate : e ≤ now) :
    (s.mode = Mode.work →
      (tickE now s).2 = [Event.reward] ∧
      ∀ now' : ℤ, (tickE now' (tickE now s).1).2 = []) ∧
    (s.mode = Mode.onBreak →
      (tickE now s).2 = [Event.cycleComplete] ∧
      ∀ now' : ℤ, (tickE now' (tickE now s).1).2 = []) := by
  have hr : secondsLeftOf e now = 0 := secondsLeftOf_eq_zero hlate
  constructor
  · intro hm
    have hstep : tick now s =
        { s with currentTime := 0, mode := Mode.finishedWork } := by
      simp [tick, he, hm, hr]
    constructor
    · simp [tickE, hstep, eventsOf, hm, modeChangeEvents]
    · intro now'
      have hstep' : tick now' (tick now s) = tick now s :=
        tick_noop now' (tick now s) (by simp [hstep]) (by simp [hstep])
      simp [tickE, hstep', eventsOf]
  · intro hm
    have hstep : tick now s =
        { s with currentTime := 0, mode := Mode.idle } := by
      simp [tick, he, hm, hr]
    constructor
    · simp [tickE, hstep, eventsOf, hm, modeChangeEvents]
    · intro now'
      have hstep' : tick now' (tick now s) = tick now s :=
        tick_noop now' (tick now s) (by simp [hstep]) (by simp [hstep])
      simp [tickE, hstep', eventsOf]

/-- C3 witness: a work phase started at `t = 0` with a tick delayed to
`now = 99999999` fires exactly `[reward]`, and a later tick fires nothing. -/
theorem transition_effects_fire_once_witness :
    (startWork 0 (init 1 1)).endTime = some 60000 ∧
    (60000 : ℤ) ≤ 99999999 ∧
    (tickE 99999999 (startWork 0 (init 1 1))).2 = [Event.reward] ∧
    (tickE 123 (tickE 99999999 (startWork 0 (init 1 1))).1).2 = [] :=
  ⟨by decide, by decide,
    ((transition_effects_fire_once (startWork 0 (init 1 1)) 60000 99999999
        (by decide) (by decide)).1 (by decide)).1,
    ((transition_effects_fire_once (startWork 0 (init 1 1)) 60000 99999999
        (by decide) (by decide)).1 (by decide)).2 123⟩

/-- C4: calling `start()` in any mode other than idle, or `startBreak()` in
any mode other than finishedWork, leaves the entire timer state unchanged. -/
theorem guards_are_noops (s : TimerState) (now : ℤ) :
    (s.mode ≠ Mode.idle → startWork now s = s) ∧
    (s.mode ≠ Mode.finishedWork → startBreak now s = s) := by
  constructor
  · intro h
    simp [startWork, h]
  · intro h
    simp [startBreak, h]

/-- C4 witness: in the `work` state both wrong-state calls are no-ops. -/
theorem guards_are_noops_witness :
    (startWork 0 (init 1 1)).mode ≠ Mode.idle ∧
    (startWork 0 (init 1 1)).mode ≠ Mode.finishedWork ∧
    startWork 5 (startWork 0 (init 1 1)) = startWork 0 (init 1 1) ∧
    startBreak 5 (startWork 0 (init 1 1)) = startWork 0 (init 1 1) :=
  ⟨by decide, by decide,
    (guards_are_noops (startWork 0 (init 1 1)) 5).1 (by decide),
    (guards_are_noops (startWork 0 (init 1 1)) 5).2 (by decide)⟩

end Timer

/-! ## Physics theorems -/

namespace Physics

theorem clampAxis_bounds (size limit pos vel : ℝ) (h : size ≤ limit) :
    0 ≤ (clampAxis size limit pos vel).1 ∧ (clampAxis size limit pos vel).1 ≤ limit - size := by
  unfold clampAxis
  split_ifs with h1 h2 <;> dsimp only <;> constructor <;> linarith

/-- C5 (amended): after the integration / boundary-clamp / damping phase of a
tick, every particle position lies within `[0, container − size]` on both
axes; the subsequent pairwise-separation and obstacle push-out passes can move
a particle back out of bounds within the same tick (see the counterexample). -/
theorem integrate_containment (size W H dt : ℝ) (a : Accel) (o : Orange)
    (hW : size ≤ W) (hH : size ≤ H) :
    0 ≤ (integrate size W H dt a o).x ∧ (integrate size W H dt a o).x ≤ W - size ∧
    0 ≤ (integrate size W H dt a o).y ∧ (integrate size W H dt a o).y ≤ H - size := by
  unfold integrate
  dsimp only
  exact ⟨(clampAxis_bounds _ _ _ _ hW).1, (clampAxis_bounds _ _ _ _ hW).2,
    (clampAxis_bounds _ _ _ _ hH).1, (clampAxis_bounds _ _ _ _ hH).2⟩

/-- C5 witness: the phase-1 containment evaluated on a concrete particle in a
1000×1000 container. -/
theorem integrate_containment_witness :
    (70 : ℝ) ≤ 1000 ∧ (70 : ℝ) ≤ 1000 ∧
    (0 ≤ (integrate 70 1000 1000 1 defaultAccel ⟨1, 100, 100, 3, 4⟩).x ∧
      (integrate 70 1000 1000 1 defaultAccel ⟨1, 100, 100, 3, 4⟩).x ≤ 1000 - 70 ∧
      0 ≤ (integrate 70 1000 1000 1 defaultAccel ⟨1, 100, 100, 3, 4⟩).y ∧
      (integrate 70 1000 1000 1 defaultAccel ⟨1, 100, 100, 3, 4⟩).y ≤ 1000 - 70) :=
  ⟨by norm_num, by norm_num,
    integrate_containment 70 1000 1000 1 defaultAccel ⟨1, 100, 100, 3, 4⟩
      (by norm_num) (by norm_num)⟩

/-- C9 (amended): when the orientation capability is entirely absent the
simulation acceleration is permanently the fixed default `(0, 500)`; on a
device without a consent gate but with the capability present, the engine gets
`accelRef` scaled by `velocityBoost` — which before the first tilt sample
(`accelRef = (0, 0)`) is the zero vector, not the downward default. -/
theorem accel_selection (needs granted g : Bool) (ref : Accel) :
    selectAccel false needs granted ref = defaultAccel ∧
    selectAccel true false g ref = ⟨ref.ax * velocityBoost, ref.ay * velocityBoost⟩ ∧
    selectAccel true false g initialAccelRef = ⟨0, 0⟩ := by
  refine ⟨?_, ?_, ?_⟩
  · simp [selectAccel]
  · simp [selectAccel]
  · simp [selectAccel, initialAccelRef, velocityBoost]

/-- C9 counterexample: on a no-consent-gate device with the capability present
and no tilt sample yet received, the acceleration handed to the physics is
`(0, 0)`, not the claimed default `(0, 500)`. -/
theorem accel_initial_not_default_counterexample :
    (selectAccel true false false initialAccelRef).ay = 0 ∧
    defaultAccel.ay = 500 ∧
    selectAccel true false false initialAccelRef ≠ defaultAccel := by
  have h1 : (selectAccel true false false initialAccelRef).ay = 0 := by
    simp [selectAccel, initialAccelRef, velocityBoost]
  refine ⟨h1, rfl, fun hEq => ?_⟩
  rw [hEq] at h1
  norm_num [defaultAccel] at h1

/-- C10: whenever the pairwise pass applies its impulse it adds
`impulseScalar·n` to one particle's velocity and subtracts it from the
other's, so the vector sum of the pair's velocities is unchanged by the whole
pair interaction — momentum is conserved by every pairwise bounce. -/
theorem pair_impulse_conserves_momentum (size : ℝ) (A B : Orange) :
    (collidePair size A B).1.vx + (collidePair size A B).2.vx = A.vx + B.vx ∧
    (collidePair size A B).1.vy + (collidePair size A B).2.vy = A.vy + B.vy := by
  unfold collidePair
  dsimp only
  split_ifs <;> constructor <;> dsimp only <;> ring

theorem collidePair_same_center (size : ℝ) (A B : Orange)
    (hx : B.x = A.x) (hy : B.y = A.y) : collidePair size A B = (A, B) := by
  unfold collidePair
  dsimp only
  rw [hx, hy]
  simp

/-- C7 (amended): two particles whose centers coincide exactly are skipped by
the pairwise collision pass (the `distance > 0` guard): no separation and no
impulse are applied, even though they overlap maximally — resolution happens
only once integration has moved the centers apart. -/
theorem coincident_pair_skipped (size : ℝ) (A B : Orange)
    (hx : B.x = A.x) (hy : B.y = A.y) (hsize : 0 < size) :
    collidePair size A B = (A, B) ∧
    centerDistance size A B = 0 ∧
    centerDistance size A B < minDistance size := by
  have h0 : centerDistance size A B = 0 := by
    simp [centerDistance, hx, hy]
  refine ⟨collidePair_same_center size A B hx hy, h0, ?_⟩
  rw [h0]
  unfold minDistance effectiveRadius
  linarith

/-- C7 witness: the spec's own scenario inputs — same point, velocities
`(5,0)` and `(−5,0)` — are skipped by the pass. -/
theorem coincident_pair_skipped_witness :
    ((⟨2, 100, 100, -5, 0⟩ : Orange).x = (⟨1, 100, 100, 5, 0⟩ : Orange).x) ∧
    ((⟨2, 100, 100, -5, 0⟩ : Orange).y = (⟨1, 100, 100, 5, 0⟩ : Orange).y) ∧
    (0 : ℝ) < 70 ∧
    collidePair 70 ⟨1, 100, 100, 5, 0⟩ ⟨2, 100, 100, -5, 0⟩ =
      (⟨1, 100, 100, 5, 0⟩, ⟨2, 100, 100, -5, 0⟩) ∧
    centerDistance 70 ⟨1, 100, 100, 5, 0⟩ ⟨2, 100, 100, -5, 0⟩ < minDistance 70 :=
  ⟨rfl, rfl, by norm_num,
    (coincident_pair_skipped 70 ⟨1, 100, 100, 5, 0⟩ ⟨2, 100, 100, -5, 0⟩ rfl rfl
      (by norm_num)).1,
    (coincident_pair_skipped 70 ⟨1, 100, 100, 5, 0⟩ ⟨2, 100, 100, -5, 0⟩ rfl rfl
      (by norm_num)).2.2⟩

/-- C6: the population-adjustment effect tracks the reward-count signal
exactly: growing appends exactly `count − n` fresh particles with zero
velocity and positions inside `[0, container − size]`; shrinking keeps
exactly the first `count` particles (the most recently appended ones are
dropped), each unchanged. -/
theorem population_tracks_signal (size W H : ℝ) (count : ℕ) (baseId : ℤ)
    (rand : ℕ → ℝ × ℝ) (l : List Orange)
    (hr : ∀ i : ℕ, 0 ≤ (rand i).1 ∧ (rand i).1 < 1 ∧ 0 ≤ (rand i).2 ∧ (rand i).2 < 1)
    (hW : size ≤ W) (hH : size ≤ H) :
    (l.length < count →
      adjustOranges size W H count baseId rand l
          = l ++ newOranges size W H baseId rand (count - l.length) ∧
        (newOranges size W H baseId rand (count - l.length)).length = count - l.length ∧
        ∀ p ∈ newOranges size W H baseId rand (count - l.length),
          p.vx = 0 ∧ p.vy = 0 ∧ 0 ≤ p.x ∧ p.x ≤ W - size ∧ 0 ≤ p.y ∧ p.y ≤ H - size) ∧
    (count < l.length → adjustOranges size W H count baseId rand l = l.take count) := by
  constructor
  · intro hlen
    refine ⟨by simp [adjustOranges, hlen], by simp [newOranges], ?_⟩
    intro p hp
    simp only [newOranges, List.mem_map, List.mem_range] at hp
    obtain ⟨i, hi, rfl⟩ := hp
    refine ⟨rfl, rfl, ?_, ?_, ?_, ?_⟩
    · exact mul_nonneg (hr i).1 (by linarith)
    · calc (rand i).1 * (W - size) ≤ 1 * (W - size) :=
            mul_le_mul_of_nonneg_right (le_of_lt (hr i).2.1) (by linarith)
        _ = W - size := one_mul _
    · exact mul_nonneg (hr i).2.2.1 (by linarith)
    · calc (rand i).2 * (H - size) ≤ 1 * (H - size) :=
            mul_le_mul_of_nonneg_right (le_of_lt (hr i).2.2.2) (by linarith)
        _ = H - size := one_mul _
  · intro hlt
    rw [adjustOranges, if_neg (by omega), if_pos hlt]

/-- C6 witness: growing a one-particle population to 3 appends exactly two
fresh zero-velocity particles. -/
theorem population_tracks_signal_witness :
    ([(⟨1, 5, 5, 0, 0⟩ : Orange)].length < 3) ∧
    adjustOranges 70 1000 1000 3 9 (fun _ => ((0 : ℝ), (0 : ℝ))) [⟨1, 5, 5, 0, 0⟩]
      = [⟨1, 5, 5, 0, 0⟩] ++ newOranges 70 1000 1000 9 (fun _ => ((0 : ℝ), (0 : ℝ))) 2 ∧
    (newOranges 70 1000 1000 9 (fun _ => ((0 : ℝ), (0 : ℝ))) 2).length = 2 :=
  ⟨by norm_num,
    ((population_tracks_signal 70 1000 1000 3 9 (fun _ => ((0 : ℝ), (0 : ℝ)))
        [⟨1, 5, 5, 0, 0⟩] (fun i => by norm_num) (by norm_num) (by norm_num)).1
      (by norm_num)).1,
    ((population_tracks_signal 70 1000 1000 3 9 (fun _ => ((0 : ℝ), (0 : ℝ)))
        [⟨1, 5, 5, 0, 0⟩] (fun i => by norm_num) (by norm_num) (by norm_num)).1
      (by norm_num)).2.1⟩

end Physics

namespace Physics

theorem obstacleDist_nonneg (size : ℝ) (r : Rect) (o : Orange) :
    0 ≤ obstacleDist size r o :=
  Real.sqrt_nonneg _

theorem obstacleDist_sq (size : ℝ) (r : Rect) (o : Orange) :
    obstacleDist size r o ^ 2 =
      obstacleDX size r o * obstacleDX size r o + obstacleDY size r o * obstacleDY size r o := by
  unfold obstacleDist
  exact Real.sq_sqrt (add_nonneg (mul_self_nonneg _) (mul_self_nonneg _))

theorem contactNormal_norm (size : ℝ) (r : Rect) (o : Orange) :
    (contactNormal size r o).1 ^ 2 + (contactNormal size r o).2 ^ 2 = 1 := by
  unfold contactNormal
  split_ifs with h0
  · norm_num
  · have hpos : 0 < obstacleDist size r o :=
      lt_of_le_of_ne (obstacleDist_nonneg size r o) (Ne.symm h0)
    have hsq := obstacleDist_sq size r o
    dsimp only
    field_simp
    linarith [hsq]

/-- C8: for every particle whose center is within the collision radius of the
nearest point on the obstacle rectangle, the pass reflects the velocity about
the contact normal with full reflection — the normal component is negated and
the speed is exactly preserved (no restitution damping) — and pushes the
particle out by the penetration depth along that normal; when the distance is
exactly zero the normal used is straight up, `(0, −1)` in screen
coordinates. -/
theorem obstacle_reflection (size : ℝ) (r : Rect) (o : Orange)
    (h : obstacleDist size r o < effectiveRadius size) :
    ((collideObstacle size r o).vx * (contactNormal size r o).1 +
        (collideObstacle size r o).vy * (contactNormal size r o).2 =
      -(o.vx * (contactNormal size r o).1 + o.vy * (contactNormal size r o).2)) ∧
    ((collideObstacle size r o).vx ^ 2 + (collideObstacle size r o).vy ^ 2 =
      o.vx ^ 2 + o.vy ^ 2) ∧
    ((collideObstacle size r o).x =
      o.x + (contactNormal size r o).1 * (effectiveRadius size - obstacleDist size r o)) ∧
    ((collideObstacle size r o).y =
      o.y + (contactNormal size r o).2 * (effectiveRadius size - obstacleDist size r o)) ∧
    (obstacleDist size r o = 0 → contactNormal size r o = (0, -1)) := by
  have hn := contactNormal_norm size r o
  have hco : collideObstacle size r o =
      { o with
        vx := o.vx - 2 * (o.vx * (contactNormal size r o).1 +
          o.vy * (contactNormal size r o).2) * (contactNormal size r o).1,
        vy := o.vy - 2 * (o.vx * (contactNormal size r o).1 +
          o.vy * (contactNormal size r o).2) * (contactNormal size r o).2,
        x := o.x + (contactNormal size r o).1 *
          (effectiveRadius size - obstacleDist size r o),
        y := o.y + (contactNormal size r o).2 *
          (effectiveRadius size - obstacleDist size r o) } := by
    unfold collideObstacle
    rw [if_pos h]
  refine ⟨?_, ?_, by rw [hco], by rw [hco], ?_⟩
  · rw [hco]
    dsimp only
    linear_combination
      (-2 * (o.vx * (contactNormal size r o).1 + o.vy * (contactNormal size r o).2)) * hn
  · rw [hco]
    dsimp only
    linear_combination
      (4 * (o.vx * (contactNormal size r o).1 + o.vy * (contactNormal size r o).2) ^ 2) * hn
  · intro h0
    unfold contactNormal
    rw [if_pos h0]

/-- C8 witness: the degenerate case — a particle whose center lies inside the
button rectangle (distance exactly 0) gets the straight-up normal and a
well-defined full reflection. -/
theorem obstacle_reflection_witness :
    obstacleDist 70 ⟨0, 0, 200, 200⟩ ⟨1, 65, 65, 3, 4⟩ < effectiveRadius 70 ∧
    ((collideObstacle 70 ⟨0, 0, 200, 200⟩ ⟨1, 65, 65, 3, 4⟩).vx *
          (contactNormal 70 ⟨0, 0, 200, 200⟩ ⟨1, 65, 65, 3, 4⟩).1 +
        (collideObstacle 70 ⟨0, 0, 200, 200⟩ ⟨1, 65, 65, 3, 4⟩).vy *
          (contactNormal 70 ⟨0, 0, 200, 200⟩ ⟨1, 65, 65, 3, 4⟩).2 =
      -((⟨1, 65, 65, 3, 4⟩ : Orange).vx *
            (contactNormal 70 ⟨0, 0, 200, 200⟩ ⟨1, 65, 65, 3, 4⟩).1 +
          (⟨1, 65, 65, 3, 4⟩ : Orange).vy *
            (contactNormal 70 ⟨0, 0, 200, 200⟩ ⟨1, 65, 65, 3, 4⟩).2)) ∧
    ((collideObstacle 70 ⟨0, 0, 200, 200⟩ ⟨1, 65, 65, 3, 4⟩).vx ^ 2 +
        (collideObstacle 70 ⟨0, 0, 200, 200⟩ ⟨1, 65, 65, 3, 4⟩).vy ^ 2 =
      (⟨1, 65, 65, 3, 4⟩ : Orange).vx ^ 2 + (⟨1, 65, 65, 3, 4⟩ : Orange).vy ^ 2) ∧
    (obstacleDist 70 ⟨0, 0, 200, 200⟩ ⟨1, 65, 65, 3, 4⟩ = 0 →
      contactNormal 70 ⟨0, 0, 200, 200⟩ ⟨1, 65, 65, 3, 4⟩ = (0, -1)) := by
  have hdist : obstacleDist 70 ⟨0, 0, 200, 200⟩ ⟨1, 65, 65, 3, 4⟩ = 0 := by
    unfold obstacleDist obstacleDX obstacleDY nearestPoint
    norm_num [min_def, max_def]
  have h : obstacleDist 70 ⟨0, 0, 200, 200⟩ ⟨1, 65, 65, 3, 4⟩ < effectiveRadius 70 := by
    rw [hdist]
    norm_num [effectiveRadius]
  have happ := obstacle_reflection 70 ⟨0, 0, 200, 200⟩ ⟨1, 65, 65, 3, 4⟩ h
  exact ⟨h, happ.1, happ.2.1, happ.2.2.2.2⟩

end Physics

namespace Physics

theorem update_two (size W H dt : ℝ) (a : Accel) (A B : Orange) :
    update size W H dt a none [A, B] =
      [(collidePair size (integrate size W H dt a A) (integrate size W H dt a B)).1,
       (collidePair size (integrate size W H dt a A) (integrate size W H dt a B)).2] := by
  unfold update obstaclePass pairPass
  have hidx : pairIndices ([A, B].map (integrate size W H dt a)).length = [(0, 1)] := by
    simp only [List.length_map, List.length_cons, List.length_nil]
    decide
  rw [hidx]
  simp [applyPair, List.get?, List.set]

/-- C5 counterexample: the pairwise-separation pass runs after the boundary
clamp and does not re-clamp: two overlapping particles resting against the
left wall are pushed apart, leaving the first at `x = −17`, outside
`[0, container − diameter]`, after one full tick. -/
theorem pass_pushes_out_of_bounds_counterexample :
    (update 70 1000 1000 0 defaultAccel none
        [⟨1, 0, 100, 0, 0⟩, ⟨2, 1, 100, 0, 0⟩]).map Orange.x = [-17, 18] ∧
    (-17 : ℝ) < 0 := by
  have hiA : integrate 70 1000 1000 0 defaultAccel ⟨1, 0, 100, 0, 0⟩ = ⟨1, 0, 100, 0, 0⟩ := by
    norm_num [integrate, clampAxis, defaultAccel]
  have hiB : integrate 70 1000 1000 0 defaultAccel ⟨2, 1, 100, 0, 0⟩ = ⟨2, 1, 100, 0, 0⟩ := by
    norm_num [integrate, clampAxis, defaultAccel]
  have hc : collidePair 70 ⟨1, 0, 100, 0, 0⟩ ⟨2, 1, 100, 0, 0⟩
      = (⟨1, -17, 100, 0, 0⟩, ⟨2, 18, 100, 0, 0⟩) := by
    norm_num [collidePair, minDistance, effectiveRadius, Real.sqrt_one]
  rw [update_two, hiA, hiB, hc]
  norm_num

/-- C7 counterexample: on the spec's scenario inputs — both particles at
exactly `(100, 100)` with velocities `(5, 0)` and `(−5, 0)` — a full
simulation tick (with zero elapsed time, so integration does not move them)
leaves the centers exactly coincident: center distance `0 < 2·radius = 35`,
so the pair is *not* resolved to non-overlapping positions, and no impulse
was applied (the velocities only picked up the `0.99` damping). -/
theorem same_point_pair_unresolved_counterexample :
    update 70 1000 1000 0 defaultAccel none
        [⟨1, 100, 100, 5, 0⟩, ⟨2, 100, 100, -5, 0⟩]
      = [⟨1, 100, 100, 4.95, 0⟩, ⟨2, 100, 100, -4.95, 0⟩] ∧
    centerDistance 70 ⟨1, 100, 100, 4.95, 0⟩ ⟨2, 100, 100, -4.95, 0⟩ = 0 ∧
    centerDistance 70 ⟨1, 100, 100, 4.95, 0⟩ ⟨2, 100, 100, -4.95, 0⟩ < minDistance 70 := by
  have hiA : integrate 70 1000 1000 0 defaultAccel ⟨1, 100, 100, 5, 0⟩
      = ⟨1, 100, 100, 4.95, 0⟩ := by
    norm_num [integrate, clampAxis, defaultAccel]
  have hiB : integrate 70 1000 1000 0 defaultAccel ⟨2, 100, 100, -5, 0⟩
      = ⟨2, 100, 100, -4.95, 0⟩ := by
    norm_num [integrate, clampAxis, defaultAccel]
  have hc := collidePair_same_center 70 ⟨1, 100, 100, 4.95, 0⟩ ⟨2, 100, 100, -4.95, 0⟩ rfl rfl
  rw [update_two, hiA, hiB, hc]
  refine ⟨rfl, ?_, ?_⟩
  · simp [centerDistance]
  · norm_num [centerDistance, minDistance, effectiveRadius, Real.sqrt_zero]

end Physics
